import Mathlib

/-!
Shallow embedding of the go-service process-supervisor library
(`service.go`, final iteration: the `Run` control loop built around
`sendResponse`/`sendEvent`/`start`/`stop`/`shouldShutdown`/`shouldQuit`).

Modelling choices:
* Go strings stay strings: states and command names are the exact string
  constants of the source.
* `error` values are `Option String` (the error message), `nil` = `none`.
* `io.Writer` sinks, response channels and `*exec.Cmd` handles are opaque:
  a response channel is `Option Nat` (an id, `none` = nil channel), the
  child handle is `Option Nat` (the child pid, `none` = nil pointer).
* The control loop's side effects (events sent on the events channel,
  responses sent on reply channels, signals, arming the kill timer,
  spawning the lifecycle helper) are collected in an output list `Out`.
* Goroutine interleaving is made explicit: the loop consumes a list of
  atomic actions `Act` — messages on the `states` channel, messages on
  the `commands` channel, kill-timer firings, and the lifecycle helper's
  assignment `s.command = s.makeCommand()` (`Act.launch`).
-/

namespace GoService

/-- One second in nanoseconds (`time.Second`). -/
def second : Nat := 1000000000

/-- `DefaultStartTimeout = 1 * time.Second`. -/
def DefaultStartTimeout : Nat := 1 * second

/-- `DefaultStartRetries = 3`. -/
def DefaultStartRetries : Nat := 3

/-- `syscall.SIGINT` (POSIX signal number 2). -/
def SIGINT : Nat := 2

/-- `DefaultStopSignal = syscall.SIGINT`. -/
def DefaultStopSignal : Nat := SIGINT

/-- `DefaultStopTimeout = 5 * time.Second`. -/
def DefaultStopTimeout : Nat := 5 * second

/-- `DefaultStopRestart = true`. -/
def DefaultStopRestart : Bool := true

/-- Command name constant `Start`. -/
def Start : String := "start"

/-- Command name constant `Stop`. -/
def Stop : String := "stop"

/-- Command name constant `Restart`. -/
def Restart : String := "restart"

/-- Command name constant `Shutdown`. -/
def Shutdown : String := "shutdown"

/-- State constant `Starting`. -/
def Starting : String := "starting"

/-- State constant `Running`. -/
def Running : String := "running"

/-- State constant `Stopping`. -/
def Stopping : String := "stopping"

/-- State constant `Stopped`. -/
def Stopped : String := "stopped"

/-- State constant `Exited`. -/
def Exited : String := "exited"

/-- State constant `Backoff`. -/
def Backoff : String := "backoff"

/-- Go `Command`: a name plus an optional reply channel (`Response chan<- Response`,
modelled as an opaque channel id; `none` is a nil channel). -/
structure Cmd where
  name : String
  response : Option Nat
  deriving DecidableEq, Repr

/-- Go `Service`. Exported configuration fields keep their source names; `args`
is the command line, `command` the `*exec.Cmd` child handle (modelled by the
child pid, `none` = nil), `state` the current state string. -/
structure Service where
  Directory : String
  Environment : Option (List String)
  StartTimeout : Nat
  StartRetries : Nat
  StopSignal : Nat
  StopTimeout : Nat
  StopRestart : Bool
  Stdout : Option Nat
  Stderr : Option Nat
  args : List String
  command : Option Nat
  state : String
  deriving DecidableEq, Repr

/-- `NewService`. The Go body is
`if cwd, err := os.Getwd(); err == nil { svc = &Service{...} }; return`:
the `err` bound by `:=` shadows the named return `err`, so when `os.Getwd`
fails BOTH named returns keep their zero values and `(nil, nil)` is returned.
`getwd` stands for the result of `os.Getwd()`. -/
def NewService (getwd : Except String String) (args : List String) :
    Option Service × Option String :=
  match getwd with
  | Except.ok cwd =>
      (some ⟨cwd, none, DefaultStartTimeout, DefaultStartRetries, DefaultStopSignal,
             DefaultStopTimeout, DefaultStopRestart, none, none, args, none, Stopped⟩,
       none)
  | Except.error _ => (none, none)

/-- `Service.Pid`: 0 unless the state is Running or Stopping, else the pid of
the child handle (a nil handle, which would panic in Go, yields 0 here). -/
def Service.Pid (s : Service) : Nat :=
  if s.state ≠ Running ∧ s.state ≠ Stopping then 0
  else match s.command with
       | some pid => pid
       | none => 0

/-- Local state of one execution of `Run`: the service, the in-flight command
(the loop-local variable `command *Command`), and the `retries` counter. -/
structure LoopState where
  svc : Service
  command : Option Cmd
  retries : Nat
  deriving DecidableEq, Repr

/-- Observable side effects of the control loop. -/
inductive Out where
  /-- An `Event{s, state, err}` sent on the events channel. -/
  | event : String → Option String → Out
  /-- A `Response{s, name, err}` sent on the reply channel with the given id. -/
  | response : Nat → String → Option String → Out
  /-- `s.command.Process.Signal(sig)` delivered to the given pid. -/
  | signal : Nat → Nat → Out
  /-- The stop-escalation timer goroutine is spawned carrying the given pid. -/
  | armKill : Nat → Out
  /-- `s.command.Process.Kill()` issued against the given pid. -/
  | kill : Nat → Out
  /-- The lifecycle-helper goroutine of a start attempt is spawned. -/
  | spawnStart : Out
  deriving DecidableEq, Repr

/-- The `sendResponse` closure: if a command is in flight, respond to it
(skipping the send when its reply channel is nil) and clear it. -/
def sendResponse (st : LoopState) (err : Option String) : LoopState × List Out :=
  match st.command with
  | none => (st, [])
  | some c =>
      ({ st with command := none },
       match c.response with
       | some sink => [Out.response sink c.name err]
       | none => [])

/-- The `sendEvent` closure: set `s.state`, emit the event, then possibly
resolve the in-flight command — Start/Restart succeed on Running and fail on
Exited; Stop succeeds on Stopped and fails on Exited. -/
def sendEvent (st : LoopState) (state : String) (err : Option String) :
    LoopState × List Out :=
  let st1 : LoopState := { st with svc := { st.svc with state := state } }
  let ev : Out := Out.event state err
  match st1.command with
  | none => (st1, [ev])
  | some c =>
      if c.name = Restart ∨ c.name = Start then
        if state = Running then
          let r := sendResponse st1 none
          (r.1, ev :: r.2)
        else if state = Exited then
          let r := sendResponse st1 err
          (r.1, ev :: r.2)
        else (st1, [ev])
      else if c.name = Stop then
        if state = Stopped then
          let r := sendResponse st1 none
          (r.1, ev :: r.2)
        else if state = Exited then
          let r := sendResponse st1 err
          (r.1, ev :: r.2)
        else (st1, [ev])
      else (st1, [ev])

/-- The `invalidStateError` closure:
`fmt.Sprintf("invalid state transition: %s -> %s", s.state, state)`. -/
def invalidStateError (st : LoopState) (state : String) : String :=
  "invalid state transition: " ++ st.svc.state ++ " -> " ++ state

/-- The `start` closure: guard on the current state, emit `Starting`, spawn
the lifecycle helper. -/
def start (st : LoopState) : LoopState × List Out :=
  if st.svc.state ≠ Stopped ∧ st.svc.state ≠ Exited ∧ st.svc.state ≠ Backoff then
    sendResponse st (some (invalidStateError st Starting))
  else
    let r := sendEvent st Starting none
    (r.1, r.2 ++ [Out.spawnStart])

/-- The `stop` closure: guard on `Running`, emit `Stopping`, read the pid
(after the state change, so from the Stopping state), signal the child, and
arm the kill-escalation timer tagged with that pid. -/
def stop (st : LoopState) : LoopState × List Out :=
  if st.svc.state ≠ Running then
    sendResponse st (some (invalidStateError st Stopping))
  else
    let r := sendEvent st Stopping none
    let pid := Service.Pid r.1.svc
    (r.1, r.2 ++ [Out.signal pid st.svc.StopSignal, Out.armKill pid])

/-- `shouldShutdown`: a Shutdown command is in flight. -/
def shouldShutdown (st : LoopState) : Bool :=
  match st.command with
  | some c => c.name = Shutdown
  | none => false

/-- `shouldQuit`: a Shutdown command is in flight and the state is Stopped or
Exited. -/
def shouldQuit (st : LoopState) : Bool :=
  shouldShutdown st && (st.svc.state = Stopped || st.svc.state = Exited)

/-- One atomic action the control loop (or the helper, for `launch`) takes. -/
inductive Act where
  /-- A `ProcessState{state, err}` message received on the `states` channel. -/
  | procState : String → Option String → Act
  /-- A `Command` received on the `commands` channel. -/
  | cmdMsg : Cmd → Act
  /-- The kill timer fires: the recorded pid arrives on the `kill` channel. -/
  | killMsg : Nat → Act
  /-- The helper goroutine runs `s.command = s.makeCommand()` and the child
  process (with this pid) is launched. -/
  | launch : Nat → Act
  deriving DecidableEq, Repr

/-- The `switch command.Name` block run after `command = &newCommand`. -/
def dispatchCmd (st : LoopState) : LoopState × List Out :=
  match st.command with
  | none => (st, [])
  | some c =>
      if c.name = Start then start st
      else if c.name = Stop then stop st
      else if c.name = Restart then
        if st.svc.state = Running then stop st
        else if st.svc.state = Stopped then start st
        else if st.svc.state = Exited then start st
        else sendResponse st (some (invalidStateError st Stopping))
      else if c.name = Shutdown then
        if st.svc.state = Running then stop st
        else if st.svc.state = Backoff then
          ({ st with svc := { st.svc with state := Exited } }, [])
        else (st, [])
      else (st, [])

/-- One iteration of the `select` body of `Run`, given the action taken. -/
def stepAct (st : LoopState) : Act → LoopState × List Out
  | Act.launch p => ({ st with svc := { st.svc with command := some p } }, [])
  | Act.procState pstate err =>
      if pstate = Running then
        if shouldShutdown st then stop st else sendEvent st Running none
      else if pstate = Exited then
        if st.svc.state = Stopping then sendEvent st Stopped none
        else
          let r := sendEvent st Exited err
          if r.1.svc.StopRestart then
            let r2 := start r.1
            (r2.1, r.2 ++ r2.2)
          else r
      else if pstate = Backoff then
        if st.svc.state = Stopping then sendEvent st Stopped none
        else if st.retries < st.svc.StartRetries then
          let r := sendEvent st Backoff err
          let r2 := start r.1
          ({ r2.1 with retries := r2.1.retries + 1 }, r.2 ++ r2.2)
        else
          let r := sendEvent st Exited err
          ({ r.1 with retries := 0 }, r.2)
      else (st, [])
  | Act.cmdMsg c =>
      match st.command with
      | some old =>
          if c.name = Shutdown then
            let pre : List Out :=
              match old.response with
              | some sink => [Out.response sink old.name (some "service is shuttind down")]
              | none => []
            let r := dispatchCmd { st with command := some c }
            (r.1, pre ++ r.2)
          else
            (st,
             match c.response with
             | some sink => [Out.response sink c.name (some "command %s is currently executing")]
             | none => [])
      | none => dispatchCmd { st with command := some c }
  | Act.killMsg pid =>
      if pid = Service.Pid st.svc then (st, [Out.kill pid]) else (st, [])

/-- `if command != nil { command.respond(s, nil) }` after the loop exits. -/
def finalize (st : LoopState) : List Out :=
  match st.command with
  | some c =>
      match c.response with
      | some sink => [Out.response sink c.name none]
      | none => []
  | none => []

/-- `for !shouldQuit() { select { ... } }` followed by the final respond: the
quit condition is checked before each receive; once it holds the loop exits,
the final response is emitted, and the remaining actions are never consumed.
An exhausted action list with the loop still live means the loop is blocked
waiting (no further output). -/
def runAux : LoopState → List Act → LoopState × List Out
  | st, [] => if shouldQuit st then (st, finalize st) else (st, [])
  | st, a :: rest =>
      if shouldQuit st then (st, finalize st)
      else
        let r := stepAct st a
        let r2 := runAux r.1 rest
        (r2.1, r.2 ++ r2.2)

/-- `Run` entered on a fresh service: `command = nil`, `retries = 0`. -/
def runService (svc : Service) (acts : List Act) : LoopState × List Out :=
  runAux ⟨svc, none, 0⟩ acts

/-- Exit cause built for a child exit observed after `Running` was posted. -/
def normalCause (exitErr : Option String) : String :=
  match exitErr with
  | none => "process exited normally with success"
  | some m => "process exited normally with failure: " ++ m

/-- Exit cause built for a child exit observed before `Running` was posted. -/
def prematureCause (exitErr : Option String) : String :=
  match exitErr with
  | none => "process exited prematurely with success"
  | some m => "process exited prematurely with failure: " ++ m

/-- The lifecycle-helper goroutine of one start attempt, as the sequence of
`ProcessState` messages it posts on the `states` channel. `launchErr` is the
result of `s.command.Start()`. When the launch succeeds the helper races a
start-window timer against `s.command.Wait()` through the one-slot channels
`waitOver`/`checkOver`; `timerWon` is the Boolean transmitted on `checkOver`:
`true` iff the timer goroutine found `waitOver` still empty (child not yet
exited when the start window elapsed) and therefore posted `Running`.
`exitErr` is the result of `s.command.Wait()`. -/
def helperTrace (launchErr : Option String) (timerWon : Bool)
    (exitErr : Option String) : List (String × Option String) :=
  match launchErr with
  | some e => [(Exited, some e)]
  | none =>
      if timerWon then [(Running, none), (Exited, some (normalCause exitErr))]
      else [(Backoff, some (prematureCause exitErr))]

end GoService


namespace GoService

/-- A sample configured service: the result of a successful `NewService`
(`args = ["sleep", "10"]`, working directory `/work`). -/
def svc0 : Service :=
  ⟨"/work", none, DefaultStartTimeout, DefaultStartRetries, DefaultStopSignal,
   DefaultStopTimeout, DefaultStopRestart, none, none, ["sleep", "10"], none, Stopped⟩

/-- `svc0` with the caller setting `StartRetries = 1` before running the loop. -/
def svcR1 : Service := { svc0 with StartRetries := 1 }

/-- Whether an output is an event announcing the given state. -/
def isEventOf (state : String) : Out → Bool
  | Out.event s _ => s = state
  | _ => false

/-- A start attempt whose child keeps exiting before the start window, until
the retry counter is exhausted, followed by another `start` command. -/
def actsExhaust : List Act :=
  [Act.cmdMsg ⟨Start, some 1⟩, Act.launch 100,
   Act.procState Backoff (some "process exited prematurely with success"),
   Act.launch 101,
   Act.procState Backoff (some "process exited prematurely with success"),
   Act.cmdMsg ⟨Start, some 2⟩]

/-- A premature exit (one `Backoff`) followed by the retried child surviving
the start window (`Running`). -/
def actsBackoffThenRunning : List Act :=
  [Act.cmdMsg ⟨Start, some 1⟩, Act.launch 100,
   Act.procState Backoff (some "c"), Act.launch 101, Act.procState Running none]

/-- A `stop` command arriving while a `start` command is still in flight. -/
def actsConcurrent : List Act :=
  [Act.cmdMsg ⟨Start, some 1⟩, Act.cmdMsg ⟨Stop, some 2⟩]

/-- A `shutdown` command preempting an in-flight `start` command. -/
def actsPreempt : List Act :=
  [Act.cmdMsg ⟨Start, some 1⟩, Act.cmdMsg ⟨Shutdown, some 2⟩]

/-- A `shutdown` accepted while `Starting`, after which the child reports
`Running`. -/
def actsShutdownWhileStarting : List Act :=
  [Act.cmdMsg ⟨Start, some 1⟩, Act.launch 100, Act.cmdMsg ⟨Shutdown, some 2⟩,
   Act.procState Running none]

/-- A full start/stop cycle: start, child survives the window, stop, child
exits while `Stopping`. -/
def actsStartStop : List Act :=
  [Act.cmdMsg ⟨Start, some 1⟩, Act.launch 100, Act.procState Running none,
   Act.cmdMsg ⟨Stop, some 2⟩, Act.procState Exited (some "sig")]

/-- C1: when the retry counter is exhausted in `Backoff`, the code emits an
`Exited` event — never a `Fatal` one (no such state exists in the source),
resets the counter, and responds failure with the last exit cause to the
originating `start`; the service lands in `Exited`, where a later `start`
command is accepted again (events show a new `starting`) rather than the
service staying in a terminal `Fatal` until shutdown. This contradicts the
repository's own test, which expects the exhaustion sequence to end in a
`Fatal` event. -/
theorem C1_exhaustion_emits_exited_not_fatal :
    (runService svcR1 actsExhaust).2 =
      [Out.event Starting none, Out.spawnStart,
       Out.event Backoff (some "process exited prematurely with success"),
       Out.event Starting none, Out.spawnStart,
       Out.event Exited (some "process exited prematurely with success"),
       Out.response 1 Start (some "process exited prematurely with success"),
       Out.event Starting none, Out.spawnStart] ∧
    (runService svcR1 actsExhaust).2.countP (fun o => isEventOf "fatal" o) = 0 ∧
    (runService svcR1 actsExhaust).1.retries = 0 ∧
    (runService svcR1 actsExhaust).1.svc.state = Starting := by
  refine ⟨rfl, rfl, rfl, rfl⟩

/-- C2: for a single start attempt, the lifecycle helper posts exactly one of
the three sequences {Running then Exited}, {Backoff}, {Exited with the launch
error}, and nothing else. -/
theorem C2_helper_trace_shapes :
    ∀ (launchErr exitErr : Option String) (timerWon : Bool),
      helperTrace launchErr timerWon exitErr =
          [(Running, (none : Option String)),
           (Exited, some (normalCause exitErr))] ∨
      helperTrace launchErr timerWon exitErr =
          [(Backoff, some (prematureCause exitErr))] ∨
      (∃ e, launchErr = some e ∧
        helperTrace launchErr timerWon exitErr = [(Exited, some e)]) := by
  intro launchErr exitErr timerWon
  cases launchErr with
  | none =>
      cases timerWon with
      | false => exact Or.inr (Or.inl rfl)
      | true => exact Or.inl rfl
  | some e => exact Or.inr (Or.inr ⟨e, rfl, rfl⟩)

/-- C3 counterexample: a transition into `Running` does not reset the retry
counter — after one `Backoff` the retried child reaches `Running` with the
counter still at 1. -/
theorem C3_running_does_not_reset_retries :
    (runService svc0 actsBackoffThenRunning).1.svc.state = Running ∧
    (runService svc0 actsBackoffThenRunning).1.retries = 1 ∧
    decide ((runService svc0 actsBackoffThenRunning).1.retries = 0) = false := by
  refine ⟨rfl, rfl, rfl⟩

/-- C4: the in-flight guard and the shutdown preemption behave as described
(the rejected command leaves the state untouched), but the error strings in
the code are `"command %s is currently executing"` (an unformatted `%s`
passed to `errors.New`) and `"service is shuttind down"` (typo), not the
spelled-out messages of the specification. -/
theorem C4_concurrent_and_preempt_messages :
    (runService svc0 actsConcurrent).2 =
      [Out.event Starting none, Out.spawnStart,
       Out.response 2 Stop (some "command %s is currently executing")] ∧
    (runService svc0 actsConcurrent).1.svc.state = Starting ∧
    (runService svc0 actsConcurrent).1.command = some ⟨Start, some 1⟩ ∧
    (runService svc0 actsPreempt).2 =
      [Out.event Starting none, Out.spawnStart,
       Out.response 1 Start (some "service is shuttind down")] ∧
    decide ("command %s is currently executing" = "command is currently executing")
      = false ∧
    decide ("service is shuttind down" = "service is shutting down") = false := by
  refine ⟨rfl, rfl, rfl, rfl, rfl, rfl⟩

/-- C5: a `shutdown` accepted while `Starting` is not honored when the child
reports `Running`: the loop calls `stop()` before `sendEvent(Running)` has
run, so `stop`'s guard sees state `starting`, responds to the shutdown
command with the failure `"invalid state transition: starting -> stopping"`,
and the service stays in `Starting` — no stop sequence begins, no `Stopped`
is reached, and the loop does not exit. -/
theorem C5_deferred_shutdown_fails :
    (runService svc0 actsShutdownWhileStarting).2 =
      [Out.event Starting none, Out.spawnStart,
       Out.response 1 Start (some "service is shuttind down"),
       Out.response 2 Shutdown
         (some "invalid state transition: starting -> stopping")] ∧
    (runService svc0 actsShutdownWhileStarting).1.svc.state = Starting ∧
    (runService svc0 actsShutdownWhileStarting).1.command = none ∧
    (runService svc0 actsShutdownWhileStarting).2.countP
      (fun o => isEventOf Stopping o) = 0 ∧
    (runService svc0 actsShutdownWhileStarting).2.countP
      (fun o => isEventOf Stopped o) = 0 := by
  refine ⟨rfl, rfl, rfl, rfl, rfl⟩

/-- C8: `NewService` fills in the documented defaults and state `Stopped` on
success, but when `os.Getwd` fails it returns `(nil, nil)` — the inner `err`
shadows the named return, so no error surfaces, contrary to the claim. -/
theorem C8_newservice_defaults_and_getwd :
    NewService (Except.error "getwd failed") ["sleep", "10"] = (none, none) ∧
    NewService (Except.ok "/work") ["sleep", "10"] =
      (some { Directory := "/work", Environment := none,
              StartTimeout := 1000000000, StartRetries := 3, StopSignal := 2,
              StopTimeout := 5000000000, StopRestart := true, Stdout := none,
              Stderr := none, args := ["sleep", "10"], command := none,
              state := "stopped" }, none) := by
  refine ⟨rfl, rfl⟩

/-- C9 counterexample: after a completed start/stop cycle the service is in
`Stopped` with the child handle still non-null (`s.command` is assigned by
the helper and never cleared), refuting "handle non-null iff state is Running
or Stopping" at this reachable state. -/
theorem C9_handle_nonnull_when_stopped :
    (runService svc0 actsStartStop).1.svc.state = Stopped ∧
    (runService svc0 actsStartStop).1.svc.command = some 100 ∧
    decide ((runService svc0 actsStartStop).1.svc.command ≠ none ↔
      ((runService svc0 actsStartStop).1.svc.state = Running ∨
       (runService svc0 actsStartStop).1.svc.state = Stopping)) = false := by
  refine ⟨rfl, rfl, rfl⟩

end GoService

namespace GoService

theorem sendResponse_fst : ∀ (st : LoopState) (err : Option String),
    (sendResponse st err).1 = { st with command := none }
  | ⟨_, none, _⟩, _ => rfl
  | ⟨_, some _, _⟩, _ => rfl

theorem sendEvent_fst (st : LoopState) (s : String) (e : Option String) :
    (sendEvent st s e).1 = { st with svc := { st.svc with state := s } } ∨
    (sendEvent st s e).1 =
      { st with svc := { st.svc with state := s }, command := none } := by
  obtain ⟨svc, cmd, r⟩ := st
  cases cmd with
  | none => exact Or.inl rfl
  | some c =>
      simp only [sendEvent]
      split
      · split
        · rw [sendResponse_fst]; exact Or.inr rfl
        · split
          · rw [sendResponse_fst]; exact Or.inr rfl
          · exact Or.inl rfl
      · split
        · split
          · rw [sendResponse_fst]; exact Or.inr rfl
          · split
            · rw [sendResponse_fst]; exact Or.inr rfl
            · exact Or.inl rfl
        · exact Or.inl rfl

theorem sendEvent_retries (st : LoopState) (s : String) (e : Option String) :
    (sendEvent st s e).1.retries = st.retries := by
  rcases sendEvent_fst st s e with h | h <;> rw [h]

theorem sendEvent_handle (st : LoopState) (s : String) (e : Option String) :
    (sendEvent st s e).1.svc.command = st.svc.command := by
  rcases sendEvent_fst st s e with h | h <;> rw [h]

theorem sendEvent_state (st : LoopState) (s : String) (e : Option String) :
    (sendEvent st s e).1.svc.state = s := by
  rcases sendEvent_fst st s e with h | h <;> rw [h]

theorem start_retries (st : LoopState) : (start st).1.retries = st.retries := by
  unfold start
  split
  · rw [sendResponse_fst]
  · exact sendEvent_retries st Starting none

theorem start_handle (st : LoopState) : (start st).1.svc.command = st.svc.command := by
  unfold start
  split
  · rw [sendResponse_fst]
  · exact sendEvent_handle st Starting none

theorem stop_retries (st : LoopState) : (stop st).1.retries = st.retries := by
  unfold stop
  split
  · rw [sendResponse_fst]
  · exact sendEvent_retries st Stopping none

theorem stop_handle (st : LoopState) : (stop st).1.svc.command = st.svc.command := by
  unfold stop
  split
  · rw [sendResponse_fst]
  · exact sendEvent_handle st Stopping none

theorem dispatchCmd_retries (st : LoopState) :
    (dispatchCmd st).1.retries = st.retries := by
  obtain ⟨svc, cmd, r⟩ := st
  cases cmd with
  | none => rfl
  | some c =>
      simp only [dispatchCmd]
      split
      · rw [start_retries]
      · split
        · rw [stop_retries]
        · split
          · split
            · rw [stop_retries]
            · split
              · rw [start_retries]
              · split
                · rw [start_retries]
                · rw [sendResponse_fst]
          · split
            · split
              · rw [stop_retries]
              · split <;> rfl
            · rfl

theorem dispatchCmd_handle (st : LoopState) :
    (dispatchCmd st).1.svc.command = st.svc.command := by
  obtain ⟨svc, cmd, r⟩ := st
  cases cmd with
  | none => rfl
  | some c =>
      simp only [dispatchCmd]
      split
      · rw [start_handle]
      · split
        · rw [stop_handle]
        · split
          · split
            · rw [stop_handle]
            · split
              · rw [start_handle]
              · split
                · rw [start_handle]
                · rw [sendResponse_fst]
          · split
            · split
              · rw [stop_handle]
              · split <;> rfl
            · rfl

end GoService


namespace GoService

theorem stepAct_backoff (st : LoopState) (err : Option String) :
    stepAct st (Act.procState Backoff err) =
      if st.svc.state = Stopping then sendEvent st Stopped none
      else if st.retries < st.svc.StartRetries then
        ({ (start (sendEvent st Backoff err).1).1 with
            retries := (start (sendEvent st Backoff err).1).1.retries + 1 },
         (sendEvent st Backoff err).2 ++ (start (sendEvent st Backoff err).1).2)
      else
        ({ (sendEvent st Exited err).1 with retries := 0 },
         (sendEvent st Exited err).2) := rfl

theorem stepAct_running (st : LoopState) (err : Option String) :
    stepAct st (Act.procState Running err) =
      if shouldShutdown st then stop st else sendEvent st Running none := rfl

theorem stepAct_exited (st : LoopState) (err : Option String) :
    stepAct st (Act.procState Exited err) =
      if st.svc.state = Stopping then sendEvent st Stopped none
      else if (sendEvent st Exited err).1.svc.StopRestart then
        ((start (sendEvent st Exited err).1).1,
         (sendEvent st Exited err).2 ++ (start (sendEvent st Exited err).1).2)
      else sendEvent st Exited err := rfl

theorem stepAct_kill (st : LoopState) (p : Nat) :
    stepAct st (Act.killMsg p) =
      if p = Service.Pid st.svc then (st, [Out.kill p]) else (st, []) := rfl

theorem stepAct_launch (st : LoopState) (p : Nat) :
    stepAct st (Act.launch p) =
      ({ st with svc := { st.svc with command := some p } }, []) := rfl

/-- C3 (amended): the retry counter is incremented by one on each `Backoff`
notification that is not exhausted (and not absorbed by `Stopping`), is reset
to zero exactly when retries are exhausted, and is left unchanged by every
other input, the enumeration being exhaustive over `Act`: a `Backoff`
received while `Stopping`, a `Running`, an `Exited` (including the
auto-restart path), any other state string, commands, kill firings and the
launch step all preserve it — in particular a transition into `Running` does
NOT reset it. -/
theorem C3_retry_discipline :
    ∀ (st : LoopState) (err : Option String),
      (st.svc.state ≠ Stopping → st.retries < st.svc.StartRetries →
        (stepAct st (Act.procState Backoff err)).1.retries = st.retries + 1) ∧
      (st.svc.state ≠ Stopping → ¬ st.retries < st.svc.StartRetries →
        (stepAct st (Act.procState Backoff err)).1.retries = 0) ∧
      (st.svc.state = Stopping →
        (stepAct st (Act.procState Backoff err)).1.retries = st.retries) ∧
      (stepAct st (Act.procState Running err)).1.retries = st.retries ∧
      (stepAct st (Act.procState Exited err)).1.retries = st.retries ∧
      (∀ s, s ≠ Running → s ≠ Exited → s ≠ Backoff →
        (stepAct st (Act.procState s err)).1.retries = st.retries) ∧
      (∀ c, (stepAct st (Act.cmdMsg c)).1.retries = st.retries) ∧
      (∀ p, (stepAct st (Act.killMsg p)).1.retries = st.retries) ∧
      (∀ p, (stepAct st (Act.launch p)).1.retries = st.retries) := by
  intro st err
  refine ⟨?_, ?_, ?_, ?_, ?_, ?_, ?_, ?_, ?_⟩
  · intro hs hr
    rw [stepAct_backoff, if_neg hs, if_pos hr]
    show (start (sendEvent st Backoff err).1).1.retries + 1 = st.retries + 1
    rw [start_retries, sendEvent_retries]
  · intro hs hr
    rw [stepAct_backoff, if_neg hs, if_neg hr]
  · intro hs
    rw [stepAct_backoff, if_pos hs]
    exact sendEvent_retries st Stopped none
  · rw [stepAct_running]
    split
    · exact stop_retries st
    · exact sendEvent_retries st Running none
  · rw [stepAct_exited]
    split
    · exact sendEvent_retries st Stopped none
    · split
      · show (start (sendEvent st Exited err).1).1.retries = st.retries
        rw [start_retries, sendEvent_retries]
      · exact sendEvent_retries st Exited err
  · intro s h1 h2 h3
    simp only [stepAct, if_neg h1, if_neg h2, if_neg h3]
  · intro c
    obtain ⟨svc, cmd, r⟩ := st
    cases cmd with
    | none => exact dispatchCmd_retries _
    | some old =>
        simp only [stepAct]
        split
        · exact dispatchCmd_retries _
        · rfl
  · intro p
    rw [stepAct_kill]
    split <;> rfl
  · intro p
    rfl

/-- The state feeding the witness: a fresh service mid start attempt. -/
def stC3 : LoopState := ⟨{ svc0 with state := Starting }, none, 0⟩

/-- Witness for C3: a concrete non-exhausted `Backoff` increments the counter. -/
theorem C3_retry_discipline_witness :
    (stepAct stC3 (Act.procState Backoff (some "c"))).1.retries = stC3.retries + 1 :=
  (C3_retry_discipline stC3 (some "c")).1 (by decide) (by decide)

end GoService

namespace GoService

theorem sendEvent_stopping (st : LoopState) (e : Option String) :
    sendEvent st Stopping e =
      ({ st with svc := { st.svc with state := Stopping } },
       [Out.event Stopping e]) := by
  obtain ⟨svc, cmd, r⟩ := st
  cases cmd with
  | none => rfl
  | some c =>
      simp only [sendEvent]
      split
      · rfl
      · split
        · rfl
        · rfl

theorem stop_running (st : LoopState) (h : st.svc.state = Running) :
    stop st =
      ({ st with svc := { st.svc with state := Stopping } },
       [Out.event Stopping none,
        Out.signal (Service.Pid { st.svc with state := Stopping }) st.svc.StopSignal,
        Out.armKill (Service.Pid { st.svc with state := Stopping })]) := by
  unfold stop
  rw [if_neg (show ¬ (st.svc.state ≠ Running) from fun hn => hn h)]
  simp only [sendEvent_stopping]
  rfl

/-- C6: processing a `Kill` notification carrying a recorded pid issues a
forced kill exactly when that pid equals `s.Pid()` at the moment of receipt
(the pid of the live child in `Running`/`Stopping`, 0 otherwise); a stale
notification with any other pid does nothing. Moreover, a stop sequence
arms the kill timer with the pid read right after entering `Stopping` —
the pid recorded at stop time. -/
theorem C6_kill_guard :
    ∀ (st : LoopState) (p : Nat),
      (p = Service.Pid st.svc → stepAct st (Act.killMsg p) = (st, [Out.kill p])) ∧
      (p ≠ Service.Pid st.svc → stepAct st (Act.killMsg p) = (st, [])) ∧
      (st.svc.state = Running →
        (stop st).2 =
          [Out.event Stopping none,
           Out.signal (Service.Pid { st.svc with state := Stopping }) st.svc.StopSignal,
           Out.armKill (Service.Pid { st.svc with state := Stopping })]) := by
  intro st p
  refine ⟨?_, ?_, ?_⟩
  · intro h
    rw [stepAct_kill, if_pos h]
  · intro h
    rw [stepAct_kill, if_neg h]
  · intro h
    rw [stop_running st h]

/-- The state feeding the witness: a running service with child pid 100. -/
def stC6 : LoopState := ⟨{ svc0 with state := Running, command := some 100 }, none, 0⟩

/-- Witness for C6: with child pid 100, a kill notification for 100 kills,
one for 7 does nothing, and a stop records pid 100 in the timer. -/
theorem C6_kill_guard_witness :
    stepAct stC6 (Act.killMsg 100) = (stC6, [Out.kill 100]) ∧
    stepAct stC6 (Act.killMsg 7) = (stC6, []) ∧
    (stop stC6).2 = [Out.event Stopping none, Out.signal 100 2, Out.armKill 100] :=
  ⟨(C6_kill_guard stC6 100).1 (by decide),
   (C6_kill_guard stC6 7).2.1 (by decide),
   ((C6_kill_guard stC6 100).2.2 rfl).trans (by decide)⟩

/-- Whether, per the source's guards, the state forbids the command: `start`
requires Stopped/Exited/Backoff, `stop` requires Running, `restart` requires
Running/Stopped/Exited; `shutdown` is never rejected this way. -/
def forbids (state name : String) : Bool :=
  if name = Start then
    ! (state = Stopped || state = Exited || state = Backoff)
  else if name = Stop then
    ! (state = Running)
  else if name = Restart then
    ! (state = Running || state = Stopped || state = Exited)
  else false

/-- The target state named in the rejection a forbidden command produces:
`start` attempts Starting; `stop` and `restart` attempt Stopping. -/
def attemptedState (name : String) : String :=
  if name = Start then Starting else Stopping

theorem stepAct_cmd_none (st : LoopState) (c : Cmd) (h : st.command = none) :
    stepAct st (Act.cmdMsg c) = dispatchCmd { st with command := some c } := by
  obtain ⟨svc, cmd, r⟩ := st
  cases cmd with
  | none => rfl
  | some old => exact absurd h (by simp)

/-- C7: a command received with no command in flight, in a state its guard
forbids, is answered with exactly
`"invalid state transition: <from> -> <to>"` (`<from>` the current state,
`<to>` the attempted state), the service state, handle and retry counter are
unchanged, and no event is emitted. -/
theorem C7_invalid_transition :
    ∀ (st : LoopState) (name : String) (sink : Nat),
      st.command = none →
      forbids st.svc.state name = true →
      stepAct st (Act.cmdMsg ⟨name, some sink⟩) =
        ({ st with command := none },
         [Out.response sink name
            (some ("invalid state transition: " ++ st.svc.state ++ " -> " ++
                   attemptedState name))]) := by
  intro st name sink h hf
  rw [stepAct_cmd_none st _ h]
  by_cases h1 : name = Start
  · subst h1
    unfold forbids at hf
    rw [if_pos rfl] at hf
    simp only [Bool.not_eq_true', Bool.or_eq_false_iff, decide_eq_false_iff_not] at hf
    obtain ⟨⟨hs1, hs2⟩, hs3⟩ := hf
    have hd : dispatchCmd { st with command := some ⟨Start, some sink⟩ } =
        start { st with command := some ⟨Start, some sink⟩ } := rfl
    rw [hd]
    unfold start
    rw [if_pos ⟨hs1, hs2, hs3⟩]
    rfl
  · by_cases h2 : name = Stop
    · subst h2
      unfold forbids at hf
      rw [if_neg (by decide), if_pos rfl] at hf
      simp only [Bool.not_eq_true', decide_eq_false_iff_not] at hf
      have hd : dispatchCmd { st with command := some ⟨Stop, some sink⟩ } =
          stop { st with command := some ⟨Stop, some sink⟩ } := rfl
      rw [hd]
      unfold stop
      rw [if_pos hf]
      rfl
    · by_cases h3 : name = Restart
      · subst h3
        unfold forbids at hf
        rw [if_neg (by decide), if_neg (by decide), if_pos rfl] at hf
        simp only [Bool.not_eq_true', Bool.or_eq_false_iff,
                   decide_eq_false_iff_not] at hf
        obtain ⟨⟨hs1, hs2⟩, hs3⟩ := hf
        have hd : dispatchCmd { st with command := some ⟨Restart, some sink⟩ } =
            (if st.svc.state = Running then
               stop { st with command := some ⟨Restart, some sink⟩ }
             else if st.svc.state = Stopped then
               start { st with command := some ⟨Restart, some sink⟩ }
             else if st.svc.state = Exited then
               start { st with command := some ⟨Restart, some sink⟩ }
             else
               sendResponse { st with command := some ⟨Restart, some sink⟩ }
                 (some (invalidStateError
                    { st with command := some ⟨Restart, some sink⟩ } Stopping))) := rfl
        rw [hd, if_neg hs1, if_neg hs2, if_neg hs3]
        rfl
      · unfold forbids at hf
        rw [if_neg h1, if_neg h2, if_neg h3] at hf
        exact absurd hf (by simp)

/-- Witness for C7: `stop` while `Stopped` is rejected with the exact message
`"invalid state transition: stopped -> stopping"` and nothing changes. -/
theorem C7_invalid_transition_witness :
    stepAct ⟨svc0, none, 0⟩ (Act.cmdMsg ⟨Stop, some 5⟩) =
      (⟨svc0, none, 0⟩,
       [Out.response 5 Stop (some "invalid state transition: stopped -> stopping")]) :=
  (C7_invalid_transition ⟨svc0, none, 0⟩ Stop 5 rfl (by decide)).trans (by decide)

end GoService

namespace GoService

/-- Whether an action is the helper's launch step. -/
def isLaunch : Act → Bool
  | Act.launch _ => true
  | _ => false

theorem stepAct_handle (st : LoopState) (a : Act) :
    (stepAct st a).1.svc.command = st.svc.command ∨ isLaunch a = true := by
  cases a with
  | launch p => exact Or.inr rfl
  | killMsg p =>
      left
      rw [stepAct_kill]
      split <;> rfl
  | cmdMsg c =>
      left
      obtain ⟨svc, cmd, r⟩ := st
      cases cmd with
      | none => exact dispatchCmd_handle _
      | some old =>
          simp only [stepAct]
          split
          · exact dispatchCmd_handle _
          · rfl
  | procState pstate err =>
      left
      simp only [stepAct]
      split
      · split
        · exact stop_handle _
        · exact sendEvent_handle _ _ _
      · split
        · split
          · exact sendEvent_handle _ _ _
          · split
            · show (start (sendEvent _ Exited err).1).1.svc.command = _
              rw [start_handle, sendEvent_handle]
            · exact sendEvent_handle _ _ _
        · split
          · split
            · exact sendEvent_handle _ _ _
            · split
              · show (start (sendEvent _ Backoff err).1).1.svc.command = _
                rw [start_handle, sendEvent_handle]
              · show (sendEvent _ Exited err).1.svc.command = _
                rw [sendEvent_handle]
          · rfl

theorem stepAct_handle_mono (st : LoopState) (a : Act)
    (h : st.svc.command ≠ none) : (stepAct st a).1.svc.command ≠ none := by
  rcases stepAct_handle st a with he | hl
  · rw [he]; exact h
  · cases a with
    | launch p => rw [stepAct_launch]; simp
    | procState s e => simp [isLaunch] at hl
    | cmdMsg c => simp [isLaunch] at hl
    | killMsg p => simp [isLaunch] at hl

theorem runAux_handle_none : ∀ (acts : List Act) (st : LoopState),
    st.svc.command = none → acts.all (fun a => ! isLaunch a) = true →
    (runAux st acts).1.svc.command = none
  | [], st, h, _ => by
      unfold runAux
      split <;> exact h
  | a :: rest, st, h, hall => by
      unfold runAux
      split
      · exact h
      · show (runAux (stepAct st a).1 rest).1.svc.command = none
        simp only [List.all_cons, Bool.and_eq_true] at hall
        have h1 : isLaunch a = false := by
          cases hi : isLaunch a
          · rfl
          · rw [hi] at hall
            simp at hall
        have hstep : (stepAct st a).1.svc.command = none := by
          rcases stepAct_handle st a with he | hl
          · rw [he]; exact h
          · rw [hl] at h1; cases h1
        exact runAux_handle_none rest (stepAct st a).1 hstep hall.2

/-- C9 (amended): the child handle is not tied to the state being Running or
Stopping. Instead: only the helper's launch step changes the handle; once
non-null it is never reset to null (so it stays non-null in Stopped, Exited
and Backoff after the first launch); and it remains null for as long as no
launch step has happened. -/
theorem C9_handle_monotone :
    (∀ (st : LoopState) (a : Act),
       (stepAct st a).1.svc.command = st.svc.command ∨ isLaunch a = true) ∧
    (∀ (st : LoopState) (a : Act), st.svc.command ≠ none →
       (stepAct st a).1.svc.command ≠ none) ∧
    (∀ (svc : Service) (acts : List Act), svc.command = none →
       acts.all (fun a => ! isLaunch a) = true →
       (runService svc acts).1.svc.command = none) :=
  ⟨stepAct_handle, stepAct_handle_mono,
   fun svc acts h hall => runAux_handle_none acts ⟨svc, none, 0⟩ h hall⟩

/-- Witness for C9 (amended): a run that never launches keeps a null handle. -/
theorem C9_handle_monotone_witness :
    (runService svc0 [Act.cmdMsg ⟨Start, some 1⟩]).1.svc.command = none :=
  C9_handle_monotone.2.2 svc0 [Act.cmdMsg ⟨Start, some 1⟩] rfl (by decide)

end GoService

namespace GoService

/-- Forget a command's reply channel (make it a nil channel). -/
def eraseCmd (c : Cmd) : Cmd := ⟨c.name, none⟩

/-- Forget the reply channel of a command message; other actions unchanged. -/
def eraseAct : Act → Act
  | Act.cmdMsg c => Act.cmdMsg (eraseCmd c)
  | a => a

/-- Forget the reply channel of the in-flight command, if any. -/
def eraseLS (st : LoopState) : LoopState :=
  { st with command := st.command.map eraseCmd }

/-- Whether an output is a response on a reply channel. -/
def isResponse : Out → Bool
  | Out.response _ _ _ => true
  | _ => false

/-- Keep only the non-response outputs (events, signals, kill, spawns). -/
def dropResponses (outs : List Out) : List Out :=
  outs.filter (fun o => ! isResponse o)

theorem eraseLS_svc (st : LoopState) : (eraseLS st).svc = st.svc := rfl

theorem eraseLS_retries (st : LoopState) : (eraseLS st).retries = st.retries := rfl

theorem dropResponses_append (l1 l2 : List Out) :
    dropResponses (l1 ++ l2) = dropResponses l1 ++ dropResponses l2 :=
  List.filter_append l1 l2

theorem shouldShutdown_erase : ∀ (st : LoopState),
    shouldShutdown (eraseLS st) = shouldShutdown st
  | ⟨_, none, _⟩ => rfl
  | ⟨_, some _, _⟩ => rfl

theorem shouldQuit_erase (st : LoopState) :
    shouldQuit (eraseLS st) = shouldQuit st := by
  unfold shouldQuit
  rw [shouldShutdown_erase, eraseLS_svc]

theorem finalize_erase : ∀ (st : LoopState),
    finalize (eraseLS st) = dropResponses (finalize st)
  | ⟨_, none, _⟩ => rfl
  | ⟨_, some ⟨_, none⟩, _⟩ => rfl
  | ⟨_, some ⟨_, some _⟩, _⟩ => rfl

theorem sendResponse_erase (st stE : LoopState) (h : stE = eraseLS st)
    (err : Option String) :
    sendResponse stE err =
      (eraseLS (sendResponse st err).1, dropResponses (sendResponse st err).2) := by
  subst h
  obtain ⟨svc, cmd, r⟩ := st
  cases cmd with
  | none => rfl
  | some c =>
      obtain ⟨nm, resp⟩ := c
      cases resp <;> rfl

theorem sendEvent_erase (st stE : LoopState) (h : stE = eraseLS st)
    (s : String) (e : Option String) :
    sendEvent stE s e =
      (eraseLS (sendEvent st s e).1, dropResponses (sendEvent st s e).2) := by
  subst h
  obtain ⟨svc, cmd, r⟩ := st
  cases cmd with
  | none => rfl
  | some c =>
      obtain ⟨nm, resp⟩ := c
      show sendEvent ⟨svc, some ⟨nm, none⟩, r⟩ s e = _
      simp only [sendEvent]
      by_cases hA : nm = Restart ∨ nm = Start
      · simp only [if_pos hA]
        by_cases hR : s = Running
        · simp only [if_pos hR]
          cases resp <;> rfl
        · simp only [if_neg hR]
          by_cases hE : s = Exited
          · simp only [if_pos hE]
            cases resp <;> rfl
          · simp only [if_neg hE]
            cases resp <;> rfl
      · simp only [if_neg hA]
        by_cases hS : nm = Stop
        · simp only [if_pos hS]
          by_cases hSt : s = Stopped
          · simp only [if_pos hSt]
            cases resp <;> rfl
          · simp only [if_neg hSt]
            by_cases hE : s = Exited
            · simp only [if_pos hE]
              cases resp <;> rfl
            · simp only [if_neg hE]
              cases resp <;> rfl
        · simp only [if_neg hS]
          cases resp <;> rfl

end GoService

namespace GoService

theorem invalidStateError_erase (st : LoopState) (s : String) :
    invalidStateError (eraseLS st) s = invalidStateError st s := rfl

theorem start_erase (st stE : LoopState) (h : stE = eraseLS st) :
    start stE = (eraseLS (start st).1, dropResponses (start st).2) := by
  subst h
  unfold start
  simp only [eraseLS_svc]
  by_cases hc : st.svc.state ≠ Stopped ∧ st.svc.state ≠ Exited ∧ st.svc.state ≠ Backoff
  · simp only [if_pos hc]
    rw [invalidStateError_erase]
    exact sendResponse_erase st _ rfl _
  · simp only [if_neg hc]
    show ((sendEvent (eraseLS st) Starting none).1,
          (sendEvent (eraseLS st) Starting none).2 ++ [Out.spawnStart]) = _
    rw [sendEvent_erase st _ rfl Starting none, dropResponses_append]
    rfl

theorem stop_erase (st stE : LoopState) (h : stE = eraseLS st) :
    stop stE = (eraseLS (stop st).1, dropResponses (stop st).2) := by
  subst h
  unfold stop
  simp only [eraseLS_svc]
  by_cases hc : st.svc.state ≠ Running
  · simp only [if_pos hc]
    rw [invalidStateError_erase]
    exact sendResponse_erase st _ rfl _
  · simp only [if_neg hc]
    show ((sendEvent (eraseLS st) Stopping none).1,
          (sendEvent (eraseLS st) Stopping none).2 ++
            [Out.signal (Service.Pid (sendEvent (eraseLS st) Stopping none).1.svc)
               st.svc.StopSignal,
             Out.armKill (Service.Pid (sendEvent (eraseLS st) Stopping none).1.svc)]) = _
    rw [sendEvent_erase st _ rfl Stopping none, dropResponses_append]
    rfl

theorem dispatchCmd_erase (st stE : LoopState) (h : stE = eraseLS st) :
    dispatchCmd stE =
      (eraseLS (dispatchCmd st).1, dropResponses (dispatchCmd st).2) := by
  subst h
  obtain ⟨svc, cmd, r⟩ := st
  cases cmd with
  | none => rfl
  | some c =>
      obtain ⟨nm, resp⟩ := c
      show dispatchCmd ⟨svc, some ⟨nm, none⟩, r⟩ = _
      simp only [dispatchCmd]
      by_cases h1 : nm = Start
      · simp only [if_pos h1]
        exact start_erase ⟨svc, some ⟨nm, resp⟩, r⟩ _ rfl
      · simp only [if_neg h1]
        by_cases h2 : nm = Stop
        · simp only [if_pos h2]
          exact stop_erase ⟨svc, some ⟨nm, resp⟩, r⟩ _ rfl
        · simp only [if_neg h2]
          by_cases h3 : nm = Restart
          · simp only [if_pos h3]
            by_cases hs1 : svc.state = Running
            · simp only [if_pos hs1]
              exact stop_erase ⟨svc, some ⟨nm, resp⟩, r⟩ _ rfl
            · simp only [if_neg hs1]
              by_cases hs2 : svc.state = Stopped
              · simp only [if_pos hs2]
                exact start_erase ⟨svc, some ⟨nm, resp⟩, r⟩ _ rfl
              · simp only [if_neg hs2]
                by_cases hs3 : svc.state = Exited
                · simp only [if_pos hs3]
                  exact start_erase ⟨svc, some ⟨nm, resp⟩, r⟩ _ rfl
                · simp only [if_neg hs3]
                  exact sendResponse_erase ⟨svc, some ⟨nm, resp⟩, r⟩ _ rfl _
          · simp only [if_neg h3]
            by_cases h4 : nm = Shutdown
            · simp only [if_pos h4]
              by_cases hs1 : svc.state = Running
              · simp only [if_pos hs1]
                exact stop_erase ⟨svc, some ⟨nm, resp⟩, r⟩ _ rfl
              · simp only [if_neg hs1]
                by_cases hs2 : svc.state = Backoff
                · simp only [if_pos hs2]
                  rfl
                · simp only [if_neg hs2]
                  rfl
            · simp only [if_neg h4]
              rfl

end GoService

namespace GoService

theorem stepAct_erase (st stE : LoopState) (h : stE = eraseLS st) (a : Act) :
    stepAct stE (eraseAct a) =
      (eraseLS (stepAct st a).1, dropResponses (stepAct st a).2) := by
  subst h
  cases a with
  | launch p => rfl
  | killMsg p =>
      show stepAct (eraseLS st) (Act.killMsg p) = _
      rw [stepAct_kill, stepAct_kill, eraseLS_svc]
      by_cases hp : p = Service.Pid st.svc
      · simp only [if_pos hp]
        rfl
      · simp only [if_neg hp]
        rfl
  | procState s e =>
      show stepAct (eraseLS st) (Act.procState s e) = _
      simp only [stepAct, eraseLS_svc, eraseLS_retries, shouldShutdown_erase]
      by_cases hR : s = Running
      · simp only [if_pos hR]
        by_cases hss : shouldShutdown st = true
        · simp only [if_pos hss]
          exact stop_erase st _ rfl
        · simp only [if_neg hss]
          exact sendEvent_erase st _ rfl Running none
      · simp only [if_neg hR]
        by_cases hE : s = Exited
        · simp only [if_pos hE]
          by_cases hstp : st.svc.state = Stopping
          · simp only [if_pos hstp]
            exact sendEvent_erase st _ rfl Stopped none
          · simp only [if_neg hstp]
            rw [sendEvent_erase st _ rfl Exited e]
            dsimp only [eraseLS_svc]
            by_cases hre : (sendEvent st Exited e).1.svc.StopRestart = true
            · simp only [if_pos hre]
              rw [start_erase (sendEvent st Exited e).1 _ rfl, dropResponses_append]
            · simp only [if_neg hre]
        · simp only [if_neg hE]
          by_cases hB : s = Backoff
          · simp only [if_pos hB]
            by_cases hstp : st.svc.state = Stopping
            · simp only [if_pos hstp]
              exact sendEvent_erase st _ rfl Stopped none
            · simp only [if_neg hstp]
              by_cases hret : st.retries < st.svc.StartRetries
              · simp only [if_pos hret]
                rw [sendEvent_erase st _ rfl Backoff e]
                dsimp only
                rw [start_erase (sendEvent st Backoff e).1 _ rfl, dropResponses_append]
                rfl
              · simp only [if_neg hret]
                rw [sendEvent_erase st _ rfl Exited e]
                rfl
          · simp only [if_neg hB]
            rfl
  | cmdMsg c =>
      obtain ⟨svc, cmd, r⟩ := st
      obtain ⟨nm, resp⟩ := c
      cases cmd with
      | none =>
          show dispatchCmd ⟨svc, some ⟨nm, none⟩, r⟩ = _
          exact dispatchCmd_erase ⟨svc, some ⟨nm, resp⟩, r⟩ _ rfl
      | some old =>
          obtain ⟨onm, oresp⟩ := old
          show stepAct ⟨svc, some ⟨onm, none⟩, r⟩ (Act.cmdMsg ⟨nm, none⟩) = _
          simp only [stepAct]
          by_cases hsd : nm = Shutdown
          · simp only [if_pos hsd]
            show ((dispatchCmd ⟨svc, some ⟨nm, none⟩, r⟩).1,
                  [] ++ (dispatchCmd ⟨svc, some ⟨nm, none⟩, r⟩).2) = _
            rw [dispatchCmd_erase ⟨svc, some ⟨nm, resp⟩, r⟩ ⟨svc, some ⟨nm, none⟩, r⟩ rfl]
            cases oresp with
            | none => rfl
            | some k => rfl
          · simp only [if_neg hsd]
            cases resp with
            | none => rfl
            | some k => rfl

end GoService

namespace GoService

theorem runAux_erase : ∀ (acts : List Act) (st stE : LoopState),
    stE = eraseLS st →
    runAux stE (acts.map eraseAct) =
      (eraseLS (runAux st acts).1, dropResponses (runAux st acts).2)
  | [], st, _, h => by
      subst h
      show runAux (eraseLS st) [] = _
      unfold runAux
      rw [shouldQuit_erase]
      by_cases hq : shouldQuit st = true
      · simp only [if_pos hq]
        rw [finalize_erase]
      · simp only [if_neg hq]
        rfl
  | a :: rest, st, _, h => by
      subst h
      show runAux (eraseLS st) (eraseAct a :: rest.map eraseAct) = _
      unfold runAux
      rw [shouldQuit_erase]
      by_cases hq : shouldQuit st = true
      · simp only [if_pos hq]
        rw [finalize_erase]
      · simp only [if_neg hq]
        show ((runAux (stepAct (eraseLS st) (eraseAct a)).1 (rest.map eraseAct)).1,
              (stepAct (eraseLS st) (eraseAct a)).2 ++
                (runAux (stepAct (eraseLS st) (eraseAct a)).1 (rest.map eraseAct)).2) = _
        rw [stepAct_erase st _ rfl a]
        dsimp only
        rw [runAux_erase rest (stepAct st a).1 _ rfl]
        dsimp only
        rw [dropResponses_append]

/-- C10: reply channels never influence the control loop. Running any action
sequence with every command's reply channel made nil (`eraseAct`) produces
the same final service state and retry counter (the stored in-flight command
differing only in its nil channel) and exactly the non-response outputs of
the original run: a command with a nil reply channel has its full effect on
the service, no response is emitted for it, and the loop — a total function
here, mirroring the `cmd.Response != nil` guards — never faults on the nil
channel. -/
theorem C10_nil_sink_harmless :
    ∀ (svc : Service) (acts : List Act),
      runService svc (acts.map eraseAct) =
        (eraseLS (runService svc acts).1, dropResponses (runService svc acts).2) :=
  fun svc acts => runAux_erase acts ⟨svc, none, 0⟩ ⟨svc, none, 0⟩ rfl

end GoService
